import Mathlib

/-!
The `config` subcommand of traffic_ctl (cmd/traffic_ctl/config.cc).

A shallow embedding of the functions of `config.cc` and the properties of
them that the specification states.

* C `int` values (enumerators, error codes, exit codes) are `Int`.
* C strings are `String`.
* The enumerators and macros that `config.cc` takes from `traffic_ctl.h`,
  `mgmtapi.h` and `I_RecDefs.h` are the fields of `Consts`; the functions are
  embedded for every assignment of them.
* `printf`, `CtrlMgmtError` and the management API calls act on a `World`:
  the state of the running service together with what has been written and
  which requests have been sent so far.
-/

namespace TrafficCtl

/-! ## Enumerators and macros used by config.cc -/

/-- The enumerators and exit-code macros that `config.cc` refers to by name.
Their declarations are in headers outside `config.cc`, so their values are
left open. -/
structure Consts where
  TS_ERR_OKAY : Int
  CTRL_EX_OK : Int
  CTRL_EX_ERROR : Int
  TS_REC_INT : Int
  TS_REC_COUNTER : Int
  TS_REC_FLOAT : Int
  TS_REC_STRING : Int
  TS_REC_UNDEFINED : Int
  RECT_CONFIG : Int
  RECT_LOCAL : Int
  RECT_PROCESS : Int
  RECT_NODE : Int
  RECT_CLUSTER : Int
  RECT_PLUGIN : Int
  RECA_NO_ACCESS : Int
  RECA_READ_ONLY : Int
  RECA_NULL : Int
  RECU_DYNAMIC : Int
  RECU_RESTART_TS : Int
  RECU_RESTART_TM : Int
  RECU_RESTART_TC : Int
  RECU_NULL : Int
  RECC_STR : Int
  RECC_INT : Int
  RECC_IP : Int
  RECC_NULL : Int
  TS_ACTION_SHUTDOWN : Int
  TS_ACTION_RESTART : Int
  TS_ACTION_DYNAMIC : Int
  TS_ACTION_RECONFIGURE : Int

/-- The case labels of the `switch` in `rec_typeof` are pairwise different
(a C `switch` with two equal case labels does not compile). -/
def Consts.TypeLabelsDistinct (k : Consts) : Prop :=
  [k.TS_REC_INT, k.TS_REC_COUNTER, k.TS_REC_FLOAT, k.TS_REC_STRING, k.TS_REC_UNDEFINED].Nodup

/-- The case labels of the `switch` in `rec_classof` are pairwise different. -/
def Consts.ClassLabelsDistinct (k : Consts) : Prop :=
  [k.RECT_CONFIG, k.RECT_LOCAL, k.RECT_PROCESS, k.RECT_NODE, k.RECT_CLUSTER, k.RECT_PLUGIN].Nodup

/-- The case labels of the `switch` in `rec_accessof` are pairwise different. -/
def Consts.AccessLabelsDistinct (k : Consts) : Prop :=
  [k.RECA_NO_ACCESS, k.RECA_READ_ONLY, k.RECA_NULL].Nodup

/-- The case labels of the `switch` in `rec_updateof` are pairwise different. -/
def Consts.UpdateLabelsDistinct (k : Consts) : Prop :=
  [k.RECU_DYNAMIC, k.RECU_RESTART_TS, k.RECU_RESTART_TM, k.RECU_RESTART_TC, k.RECU_NULL].Nodup

/-- The case labels of the `switch` in `rec_checkof` are pairwise different. -/
def Consts.CheckLabelsDistinct (k : Consts) : Prop :=
  [k.RECC_STR, k.RECC_INT, k.RECC_IP, k.RECC_NULL].Nodup

/-- The case labels of the `switch` in `config_set` are pairwise different. -/
def Consts.ActionLabelsDistinct (k : Consts) : Prop :=
  [k.TS_ACTION_SHUTDOWN, k.TS_ACTION_RESTART, k.TS_ACTION_RECONFIGURE, k.TS_ACTION_DYNAMIC].Nodup

/-- Modelled from the spec: the values of the exit-code macros `CTRL_EX_OK`
and `CTRL_EX_ERROR` (defined in `traffic_ctl.h`, outside `config.cc`):
"Exit-code convention expected by the consumer: `0` success, nonzero on any
Error from this core." -/
def Consts.ExitConvention (k : Consts) : Prop :=
  k.CTRL_EX_OK = 0 ∧ k.CTRL_EX_ERROR ≠ 0

instance (k : Consts) : Decidable k.TypeLabelsDistinct := by
  unfold Consts.TypeLabelsDistinct; infer_instance
instance (k : Consts) : Decidable k.ClassLabelsDistinct := by
  unfold Consts.ClassLabelsDistinct; infer_instance
instance (k : Consts) : Decidable k.AccessLabelsDistinct := by
  unfold Consts.AccessLabelsDistinct; infer_instance
instance (k : Consts) : Decidable k.UpdateLabelsDistinct := by
  unfold Consts.UpdateLabelsDistinct; infer_instance
instance (k : Consts) : Decidable k.CheckLabelsDistinct := by
  unfold Consts.CheckLabelsDistinct; infer_instance
instance (k : Consts) : Decidable k.ActionLabelsDistinct := by
  unfold Consts.ActionLabelsDistinct; infer_instance
instance (k : Consts) : Decidable k.ExitConvention := by
  unfold Consts.ExitConvention; infer_instance

/-- One assignment of the enumerators and macros, at which the statements
below are instantiated: each enumeration counts up from zero in declaration
order, the record classes are bit flags. -/
def sampleConsts : Consts where
  TS_ERR_OKAY := 0
  CTRL_EX_OK := 0
  CTRL_EX_ERROR := 2
  TS_REC_INT := 0
  TS_REC_COUNTER := 1
  TS_REC_FLOAT := 2
  TS_REC_STRING := 3
  TS_REC_UNDEFINED := 4
  RECT_CONFIG := 1
  RECT_PROCESS := 2
  RECT_NODE := 4
  RECT_CLUSTER := 8
  RECT_LOCAL := 16
  RECT_PLUGIN := 32
  RECA_NULL := 0
  RECA_NO_ACCESS := 1
  RECA_READ_ONLY := 2
  RECU_NULL := 0
  RECU_DYNAMIC := 1
  RECU_RESTART_TS := 2
  RECU_RESTART_TM := 3
  RECU_RESTART_TC := 4
  RECC_NULL := 0
  RECC_STR := 1
  RECC_INT := 2
  RECC_IP := 3
  TS_ACTION_SHUTDOWN := 0
  TS_ACTION_RESTART := 1
  TS_ACTION_DYNAMIC := 2
  TS_ACTION_RECONFIGURE := 3

/-! ## Name tables (config.cc lines 28-92) -/

/-- Record data type names, indexed by TSRecordT. -/
def rec_typeof (k : Consts) (rec_type : Int) : String :=
  if rec_type = k.TS_REC_INT then "INT"
  else if rec_type = k.TS_REC_COUNTER then "COUNTER"
  else if rec_type = k.TS_REC_FLOAT then "FLOAT"
  else if rec_type = k.TS_REC_STRING then "STRING"
  else if rec_type = k.TS_REC_UNDEFINED then "UNDEFINED"
  else "UNDEFINED"

/-- Record type name, indexed by RecT. -/
def rec_classof (k : Consts) (rec_class : Int) : String :=
  if rec_class = k.RECT_CONFIG then "standard config"
  else if rec_class = k.RECT_LOCAL then "local config"
  else if rec_class = k.RECT_PROCESS then "process metric"
  else if rec_class = k.RECT_NODE then "node metric"
  else if rec_class = k.RECT_CLUSTER then "cluster metric"
  else if rec_class = k.RECT_PLUGIN then "plugin metric"
  else "undefined"

/-- Record access control, indexed by RecAccessT. -/
def rec_accessof (k : Consts) (rec_access : Int) : String :=
  if rec_access = k.RECA_NO_ACCESS then "no access"
  else if rec_access = k.RECA_READ_ONLY then "read only"
  else if rec_access = k.RECA_NULL then "default"
  else "default"

/-- Record update type, indexed by RecUpdateT. -/
def rec_updateof (k : Consts) (rec_updatetype : Int) : String :=
  if rec_updatetype = k.RECU_DYNAMIC then "dynamic, no restart"
  else if rec_updatetype = k.RECU_RESTART_TS then "static, restart traffic_server"
  else if rec_updatetype = k.RECU_RESTART_TM then "static, restart traffic_manager"
  else if rec_updatetype = k.RECU_RESTART_TC then "static, full restart"
  else if rec_updatetype = k.RECU_NULL then "none"
  else "none"

/-- Record check type, indexed by RecCheckT. -/
def rec_checkof (k : Consts) (rec_checktype : Int) : String :=
  if rec_checktype = k.RECC_STR then "string matching a regular expression"
  else if rec_checktype = k.RECC_INT then "integer with a specified range"
  else if rec_checktype = k.RECC_IP then "IP address"
  else if rec_checktype = k.RECC_NULL then "none"
  else "none"

/-! ## The management API seen from config.cc -/

/-- What one management API call hands back: the `TSMgmtError` it returns,
the object it fills in (meaningful only when the call succeeded), and the
state it leaves behind. -/
structure Reply (α σ : Type) where
  error : Int
  value : α
  state : σ

/-- The record description filled in by `TSConfigRecordDescribe`, with the
fields `config_describe` reads. `V` is the type of a raw record value
(`TSRecordValueT`). `rec_checkexpr` is read as a NUL-terminated string
(`strlen`, `%s`). -/
structure TSConfigRecordDescription (V : Type) where
  rec_name : String
  rec_value : V
  rec_default : V
  rec_type : Int
  rec_class : Int
  rec_access : Int
  rec_updatetype : Int
  rec_update : Nat
  rec_checktype : Int
  rec_checkexpr : String
  rec_version : Int
  rec_order : Int
  rec_rsb : Int

/-- The functions `config.cc` calls and does not define. `σ` is the state of
the running service, `ρ` the type of a fetched record (`CtrlMgmtRecord`),
`V` the type of a raw record value. -/
structure Api (σ ρ V : Type) where
  /-- The call `record.fetch(name)`. -/
  fetch : σ → String → Reply ρ σ
  /-- The call `reclist.match(pattern)`. -/
  matchList : σ → String → Reply (List ρ) σ
  /-- The call `TSConfigRecordDescribe(name, 0, &desc)`. -/
  describe : σ → String → Reply (TSConfigRecordDescription V) σ
  /-- The call `TSRecordSet(name, value, &action)`. -/
  recordSet : σ → String → String → Reply Int σ
  /-- The call `TSReconfigure()`. -/
  reconfigure : σ → Int × σ
  /-- The accessor `record.name()`. -/
  name : ρ → String
  /-- The accessor `record.type()`. -/
  type : ρ → Int
  /-- The accessor `record.as_int()`. -/
  as_int : ρ → Int
  /-- The text `CtrlMgmtRecordValue(record).c_str()`. -/
  c_str : ρ → String
  /-- The text `CtrlMgmtRecordValue(rec_type, value).c_str()`. -/
  c_str_of : Int → V → String
  /-- The call `ctime_r(&tm, buf)`: the text it writes, or `none` when it
  returns NULL (a time whose year cannot be represented). -/
  ctime_r : Int → Option String
  /-- The value `CtrlCommandUsage(text, ...)` returns. -/
  usageCode : String → Int

/-- A diagnostic issued through a helper of traffic_ctl.h. -/
inductive Diag where
  /-- The call `CtrlMgmtError(error, fmt, ...)`, with the formatted message
  (`none` for a NULL format). -/
  | mgmtError (error : Int) (msg : Option String)
  /-- The call `CtrlCommandUsage(text, ...)`. -/
  | usage (text : String)
  deriving DecidableEq, Repr

/-- A request sent to the running service. -/
inductive Request where
  | fetch (name : String)
  | matchList (pattern : String)
  | describe (name : String)
  | recordSet (name value : String)
  | reconfigure
  deriving DecidableEq, Repr

/-- Everything a command can change: the running service, standard output
(one entry per `printf` call, oldest first), the diagnostics issued and the
requests sent to the service (oldest first). -/
structure World (σ : Type) where
  service : σ
  out : List String
  diag : List Diag
  requests : List Request

/-- The world before a command has done anything. -/
def World.start {σ : Type} (s : σ) : World σ := ⟨s, [], [], []⟩

/-- The parsed command line: the result of `CtrlProcessArguments`, the value
it stores in the `--records` flag and the global `file_arguments`. -/
structure Args where
  parsed : Bool
  recfmt : Int
  file_arguments : List String

section Commands

variable {σ ρ V : Type}

/-- One `printf` call writing the text `s`. -/
def printf (s : String) (w : World σ) : World σ :=
  { w with out := w.out ++ [s] }

/-- The call `CtrlMgmtError(error, fmt, ...)`. -/
def CtrlMgmtError (error : Int) (msg : Option String) (w : World σ) : World σ :=
  { w with diag := w.diag ++ [Diag.mgmtError error msg] }

/-- The call `CtrlCommandUsage(text, ...)`. -/
def CtrlCommandUsage (api : Api σ ρ V) (text : String) (w : World σ) : Int × World σ :=
  (api.usageCode text, { w with diag := w.diag ++ [Diag.usage text] })

/-- The call `record.fetch(name)` in a world. -/
def fetch (api : Api σ ρ V) (name : String) (w : World σ) : Reply ρ (World σ) :=
  let r := api.fetch w.service name
  ⟨r.error, r.value, { w with service := r.state, requests := w.requests ++ [Request.fetch name] }⟩

/-- The call `reclist.match(pattern)` in a world. -/
def matchList (api : Api σ ρ V) (pattern : String) (w : World σ) : Reply (List ρ) (World σ) :=
  let r := api.matchList w.service pattern
  ⟨r.error, r.value,
    { w with service := r.state, requests := w.requests ++ [Request.matchList pattern] }⟩

/-- The call `TSConfigRecordDescribe(name, 0, &desc)` in a world. -/
def TSConfigRecordDescribe (api : Api σ ρ V) (name : String) (w : World σ) :
    Reply (TSConfigRecordDescription V) (World σ) :=
  let r := api.describe w.service name
  ⟨r.error, r.value,
    { w with service := r.state, requests := w.requests ++ [Request.describe name] }⟩

/-- The call `TSRecordSet(name, value, &action)` in a world. -/
def TSRecordSet (api : Api σ ρ V) (name value : String) (w : World σ) : Reply Int (World σ) :=
  let r := api.recordSet w.service name value
  ⟨r.error, r.value,
    { w with service := r.state, requests := w.requests ++ [Request.recordSet name value] }⟩

/-- The call `TSReconfigure()` in a world. -/
def TSReconfigure (api : Api σ ρ V) (w : World σ) : Int × World σ :=
  let r := api.reconfigure w.service
  (r.1, { w with service := r.2, requests := w.requests ++ [Request.reconfigure] })

/-- The function `timestr` (config.cc lines 94-99). The result of `ctime_r`
goes unchecked into `std::string`; on NULL the construction does not return
a string and the command never returns, which is `none` here. -/
def timestr (api : Api σ ρ V) (tm : Int) : Option String :=
  api.ctime_r tm

/-- The function `format_record` (config.cc lines 101-112). -/
def format_record (k : Consts) (api : Api σ ρ V) (record : ρ) (recfmt : Bool)
    (w : World σ) : World σ :=
  if recfmt then
    printf ("CONFIG " ++ api.name record ++ " " ++ rec_typeof k (api.type record) ++ " "
      ++ api.c_str record ++ "\n") w
  else
    printf (api.name record ++ ": " ++ api.c_str record ++ "\n") w

/-- The loop of `config_get` (config.cc lines 126-137) over the remaining
file arguments. -/
def config_get_loop (k : Consts) (api : Api σ ρ V) (recfmt : Int) :
    List String → World σ → Int × World σ
  | [], w => (k.CTRL_EX_OK, w)
  | arg :: rest, w =>
    let r := fetch api arg w
    if r.error ≠ k.TS_ERR_OKAY then
      (k.CTRL_EX_ERROR, CtrlMgmtError r.error (some ("failed to fetch " ++ arg)) r.state)
    else
      config_get_loop k api recfmt rest (format_record k api r.value (recfmt != 0) r.state)

/-- The function `config_get` (config.cc lines 114-140). -/
def config_get (k : Consts) (api : Api σ ρ V) (a : Args) (w : World σ) : Int × World σ :=
  if !a.parsed || a.file_arguments.length < 1 then
    CtrlCommandUsage api "config get [OPTIONS] RECORD [RECORD ...]" w
  else
    config_get_loop k api a.recfmt a.file_arguments w

/-- The conversion `%-16s`: the text, padded on the right with blanks to
sixteen characters. -/
def pad16 (s : String) : String :=
  s ++ String.mk (List.replicate (16 - s.length) ' ')

/-- The conversion `0x%" PRIx64 "` of an unsigned 64-bit value. -/
def hex64 (n : Nat) : String :=
  "0x" ++ String.mk (Nat.toDigits 16 (n % 2 ^ 64))

/-- The conversion `%" PRId64 "` of a signed 64-bit value. -/
def dec64 (i : Int) : String :=
  toString i

/-- The "Syntax Check" statement of `config_describe` (config.cc lines
169-173). -/
def describe_check (k : Consts) (desc : TSConfigRecordDescription V) (w : World σ) : World σ :=
  if desc.rec_checkexpr.length ≠ 0 then
    printf (pad16 "Syntax Check" ++ ": " ++ rec_checkof k desc.rec_checktype ++ ", '"
      ++ desc.rec_checkexpr ++ "'\n") w
  else
    printf (pad16 "Syntax Check" ++ ": " ++ rec_checkof k desc.rec_checktype ++ "\n") w

/-- What `config_describe` prints for one description (config.cc lines
160-177). -/
def describe_print (k : Consts) (api : Api σ ρ V) (desc : TSConfigRecordDescription V)
    (w : World σ) : World σ :=
  let w := printf (pad16 "Name" ++ ": " ++ desc.rec_name ++ "\n") w
  let w := printf (pad16 "Current Value" ++ ": "
    ++ api.c_str_of desc.rec_type desc.rec_value ++ "\n") w
  let w := printf (pad16 "Default Value" ++ ": "
    ++ api.c_str_of desc.rec_type desc.rec_default ++ "\n") w
  let w := printf (pad16 "Record Type" ++ ": " ++ rec_classof k desc.rec_class ++ "\n") w
  let w := printf (pad16 "Data Type" ++ ": " ++ rec_typeof k desc.rec_type ++ "\n") w
  let w := printf (pad16 "Access Control " ++ ": " ++ rec_accessof k desc.rec_access ++ "\n") w
  let w := printf (pad16 "Update Type" ++ ": " ++ rec_updateof k desc.rec_updatetype ++ "\n") w
  let w := printf (pad16 "Update Status" ++ ": " ++ hex64 desc.rec_update ++ "\n") w
  let w := describe_check k desc w
  let w := printf (pad16 "Version" ++ ": " ++ dec64 desc.rec_version ++ "\n") w
  let w := printf (pad16 "Order" ++ ": " ++ dec64 desc.rec_order ++ "\n") w
  printf (pad16 "Raw Stat Block" ++ ": " ++ dec64 desc.rec_rsb ++ "\n") w

/-- The loop of `config_describe` (config.cc lines 149-180) over the
remaining file arguments. `ink_zero(desc)` and
`TSConfigRecordDescriptionFree(&desc)` only manage the memory of `desc` and
have no counterpart here. -/
def config_describe_loop (k : Consts) (api : Api σ ρ V) :
    List String → World σ → Int × World σ
  | [], w => (k.CTRL_EX_OK, w)
  | arg :: rest, w =>
    let r := TSConfigRecordDescribe api arg w
    if r.error ≠ k.TS_ERR_OKAY then
      (k.CTRL_EX_ERROR, CtrlMgmtError r.error (some ("failed to describe " ++ arg)) r.state)
    else
      config_describe_loop k api rest (describe_print k api r.value r.state)

/-- The function `config_describe` (config.cc lines 142-183). -/
def config_describe (k : Consts) (api : Api σ ρ V) (a : Args) (w : World σ) : Int × World σ :=
  if !a.parsed || a.file_arguments.length < 1 then
    CtrlCommandUsage api "config describe RECORD [RECORD ...]" w
  else
    config_describe_loop k api a.file_arguments w

/-- The `switch (action)` of `config_set` (config.cc lines 201-215). -/
def config_set_report (k : Consts) (name : String) (action : Int) (w : World σ) : World σ :=
  if action = k.TS_ACTION_SHUTDOWN then
    printf ("set " ++ name ++ ", full shutdown required\n") w
  else if action = k.TS_ACTION_RESTART then
    printf ("set " ++ name ++ ", restart required\n") w
  else if action = k.TS_ACTION_RECONFIGURE then
    w
  else if action = k.TS_ACTION_DYNAMIC then
    printf ("set " ++ name ++ "\n") w
  else
    printf ("set " ++ name ++ "\n") w

/-- The function `config_set` (config.cc lines 185-218). The first arm is the
case in which `CtrlProcessArguments` succeeded and `n_file_arguments` is 2,
with `file_arguments[0]` and `file_arguments[1]` named; the second arm is
the usage exit. -/
def config_set (k : Consts) (api : Api σ ρ V) (a : Args) (w : World σ) : Int × World σ :=
  match a.parsed, a.file_arguments with
  | true, [name, value] =>
    let r := TSRecordSet api name value w
    if r.error ≠ k.TS_ERR_OKAY then
      (k.CTRL_EX_ERROR, CtrlMgmtError r.error (some ("failed to set " ++ name)) r.state)
    else
      (k.CTRL_EX_OK, config_set_report k name r.value r.state)
  | _, _ => CtrlCommandUsage api "config set RECORD VALUE" w

/-- Modelled from the spec: the list class `CtrlMgmtRecordList` with its
members `empty()` and `next()` (declared in traffic_ctl.h, outside
config.cc): "an ordered sequence of RecordHandle produced by one pattern
query"; "consumption is destructive/one-pass (each element yielded exactly
once, set becomes empty after full consumption); order is whatever the
service returns". -/
abbrev CtrlMgmtRecordList (ρ : Type) : Type := List ρ

/-- Modelled from the spec: the member `reclist.empty()`, true when no
record is left to yield. -/
def CtrlMgmtRecordList.empty (reclist : CtrlMgmtRecordList ρ) : Bool :=
  List.isEmpty reclist

/-- Modelled from the spec: the member `reclist.next()` on a list that is
not empty: the first record left, and the list without it. -/
def CtrlMgmtRecordList.next :
    (reclist : CtrlMgmtRecordList ρ) → reclist.empty = false → ρ × CtrlMgmtRecordList ρ
  | record :: rest, _ => (record, rest)

/-- The `while (!reclist.empty())` loop of `config_match` (config.cc lines
244-247): it gives the list and the world it leaves. -/
def config_match_consume (k : Consts) (api : Api σ ρ V) (recfmt : Int)
    (reclist : CtrlMgmtRecordList ρ) (w : World σ) : CtrlMgmtRecordList ρ × World σ :=
  if h : reclist.empty = false then
    let p := reclist.next h
    config_match_consume k api recfmt p.2 (format_record k api p.1 (recfmt != 0) w)
  else
    (reclist, w)
termination_by reclist.length
decreasing_by
  cases reclist with
  | nil => simp [CtrlMgmtRecordList.empty] at h
  | cons r rest => simp [CtrlMgmtRecordList.next]

/-- The loop of `config_match` (config.cc lines 232-248) over the remaining
file arguments. -/
def config_match_loop (k : Consts) (api : Api σ ρ V) (recfmt : Int) :
    List String → World σ → Int × World σ
  | [], w => (k.CTRL_EX_OK, w)
  | arg :: rest, w =>
    let r := matchList api arg w
    if r.error ≠ k.TS_ERR_OKAY then
      (k.CTRL_EX_ERROR, CtrlMgmtError r.error (some ("failed to fetch " ++ arg)) r.state)
    else
      config_match_loop k api recfmt rest (config_match_consume k api recfmt r.value r.state).2

/-- The function `config_match` (config.cc lines 220-251). -/
def config_match (k : Consts) (api : Api σ ρ V) (a : Args) (w : World σ) : Int × World σ :=
  if !a.parsed || a.file_arguments.length < 1 then
    CtrlCommandUsage api "config match [OPTIONS] REGEX [REGEX ...]" w
  else
    config_match_loop k api a.recfmt a.file_arguments w

/-- The function `config_reload` (config.cc lines 253-267). -/
def config_reload (k : Consts) (api : Api σ ρ V) (a : Args) (w : World σ) : Int × World σ :=
  if !a.parsed || a.file_arguments.length ≠ 0 then
    CtrlCommandUsage api "config reload" w
  else
    let r := TSReconfigure api w
    if r.1 ≠ k.TS_ERR_OKAY then
      (k.CTRL_EX_ERROR, CtrlMgmtError r.1 (some "configuration reload request failed") r.2)
    else
      (k.CTRL_EX_OK, r.2)

/-- Modelled from the spec: the macro `CTRL_MGMT_CHECK(expr)` (defined in
traffic_ctl.h, outside config.cc). `r` is the evaluated management call and
`rest` the statements after the macro: "if any one fetch fails, the whole
status operation fails"; "a multi-record operation (match, status) stops at
the first error encountered"; "All are reported to the caller"; exit code
"nonzero on any Error from this core". -/
def CTRL_MGMT_CHECK (k : Consts) (r : Reply ρ (World σ))
    (rest : ρ → World σ → Option Int × World σ) : Option Int × World σ :=
  if r.error ≠ k.TS_ERR_OKAY then
    (some k.CTRL_EX_ERROR, CtrlMgmtError r.error none r.state)
  else
    rest r.value r.state

/-- The statements of `config_status` after its seven fetches (config.cc
lines 292-307). The result is the value returned, or `none` when the
command stops in `timestr` without returning; the world is what has been
written up to there. -/
def config_status_print (k : Consts) (api : Api σ ρ V)
    (version starttime configtime reconfig proxy manager cop : ρ) (w : World σ) :
    Option Int × World σ :=
  let w := printf (api.c_str version ++ "\n") w
  match timestr api (api.as_int starttime) with
  | none => (none, w)
  | some started =>
  let w := printf ("Started at " ++ started) w
  match timestr api (api.as_int configtime) with
  | none => (none, w)
  | some configured =>
  let w := printf ("Last reconfiguration at " ++ configured) w
  let w := printf ((if api.as_int reconfig ≠ 0 then "Reconfiguration required"
    else "Configuration is current") ++ "\n") w
  let w := if api.as_int proxy ≠ 0 then printf "traffic_server requires restarting\n" w else w
  let w := if api.as_int manager ≠ 0 then printf "traffic_manager requires restarting\n" w else w
  let w := if api.as_int cop ≠ 0 then printf "traffic_cop requires restarting\n" w else w
  (some k.CTRL_EX_OK, w)

/-- The function `config_status` (config.cc lines 269-308). The result is
the value returned, or `none` when the command stops without returning. -/
def config_status (k : Consts) (api : Api σ ρ V) (a : Args) (w : World σ) :
    Option Int × World σ :=
  if !a.parsed || a.file_arguments.length ≠ 0 then
    (some (CtrlCommandUsage api "config status" w).1, (CtrlCommandUsage api "config status" w).2)
  else
    CTRL_MGMT_CHECK k (fetch api "proxy.process.version.server.long" w) fun version w =>
    CTRL_MGMT_CHECK k (fetch api "proxy.node.restarts.proxy.start_time" w) fun starttime w =>
    CTRL_MGMT_CHECK k (fetch api "proxy.node.config.reconfigure_time" w) fun configtime w =>
    CTRL_MGMT_CHECK k (fetch api "proxy.node.config.reconfigure_required" w) fun reconfig w =>
    CTRL_MGMT_CHECK k (fetch api "proxy.node.config.restart_required.proxy" w) fun proxy w =>
    CTRL_MGMT_CHECK k (fetch api "proxy.node.config.restart_required.manager" w) fun manager w =>
    CTRL_MGMT_CHECK k (fetch api "proxy.node.config.restart_required.cop" w) fun cop w =>
    config_status_print k api version starttime configtime reconfig proxy manager cop w

end Commands

/-! ## Vocabulary of the statements -/

section Vocabulary

variable {σ ρ V : Type}

/-- The line `format_record` writes for a record. -/
def record_line (k : Consts) (api : Api σ ρ V) (record : ρ) (recfmt : Bool) : String :=
  if recfmt then
    "CONFIG " ++ api.name record ++ " " ++ rec_typeof k (api.type record) ++ " "
      ++ api.c_str record ++ "\n"
  else
    api.name record ++ ": " ++ api.c_str record ++ "\n"

/-- The "Syntax Check" line `config_describe` writes for a description. -/
def check_line (k : Consts) (desc : TSConfigRecordDescription V) : String :=
  if desc.rec_checkexpr = "" then
    "Syntax Check    : " ++ rec_checkof k desc.rec_checktype ++ "\n"
  else
    "Syntax Check    : " ++ rec_checkof k desc.rec_checktype ++ ", '" ++ desc.rec_checkexpr
      ++ "'\n"

/-- The replies of the service when the names are fetched one after another,
each request against the state the previous one left. -/
def fetch_replies (api : Api σ ρ V) : List String → σ → List (Reply ρ σ)
  | [], _ => []
  | name :: rest, s => api.fetch s name :: fetch_replies api rest (api.fetch s name).state

/-- The replies of the service when the patterns are matched one after
another, each request against the state the previous one left. -/
def match_replies (api : Api σ ρ V) : List String → σ → List (Reply (List ρ) σ)
  | [], _ => []
  | pattern :: rest, s =>
    api.matchList s pattern :: match_replies api rest (api.matchList s pattern).state

/-- The replies of the service when the names are described one after
another, each request against the state the previous one left. -/
def describe_replies (api : Api σ ρ V) :
    List String → σ → List (Reply (TSConfigRecordDescription V) σ)
  | [], _ => []
  | name :: rest, s =>
    api.describe s name :: describe_replies api rest (api.describe s name).state

/-- The twelve lines `config_describe` writes for a description, the ninth
being the "Syntax Check" line. -/
def describe_lines (k : Consts) (api : Api σ ρ V) (desc : TSConfigRecordDescription V) :
    List String :=
  [pad16 "Name" ++ ": " ++ desc.rec_name ++ "\n",
   pad16 "Current Value" ++ ": " ++ api.c_str_of desc.rec_type desc.rec_value ++ "\n",
   pad16 "Default Value" ++ ": " ++ api.c_str_of desc.rec_type desc.rec_default ++ "\n",
   pad16 "Record Type" ++ ": " ++ rec_classof k desc.rec_class ++ "\n",
   pad16 "Data Type" ++ ": " ++ rec_typeof k desc.rec_type ++ "\n",
   pad16 "Access Control " ++ ": " ++ rec_accessof k desc.rec_access ++ "\n",
   pad16 "Update Type" ++ ": " ++ rec_updateof k desc.rec_updatetype ++ "\n",
   pad16 "Update Status" ++ ": " ++ hex64 desc.rec_update ++ "\n",
   check_line k desc,
   pad16 "Version" ++ ": " ++ dec64 desc.rec_version ++ "\n",
   pad16 "Order" ++ ": " ++ dec64 desc.rec_order ++ "\n",
   pad16 "Raw Stat Block" ++ ": " ++ dec64 desc.rec_rsb ++ "\n"]

/-- The lines of the replies that come before the first failure. -/
def described (k : Consts) (api : Api σ ρ V) :
    List (Reply (TSConfigRecordDescription V) σ) → List String
  | [] => []
  | r :: rest =>
    if r.error ≠ k.TS_ERR_OKAY then [] else describe_lines k api r.value ++ described k api rest

/-- The seven records `config_status` fetches, in the order of its fetches. -/
def status_records : List String :=
  ["proxy.process.version.server.long", "proxy.node.restarts.proxy.start_time",
   "proxy.node.config.reconfigure_time", "proxy.node.config.reconfigure_required",
   "proxy.node.config.restart_required.proxy", "proxy.node.config.restart_required.manager",
   "proxy.node.config.restart_required.cop"]

end Vocabulary

/-! ## A sample service -/

/-- A fetched record of the sample service. -/
structure SampleRecord where
  name : String
  type : Int
  as_int : Int
  text : String
  deriving DecidableEq, Repr

/-- A sample service, at which the statements below are instantiated. Its
state counts the requests served. It knows no record whose name starts with
`x`, describes the records whose name starts with `l` as integers with an
empty validation expression and the others as strings with the expression
`^[0-9]+$`, fails to answer a fetch made as its seventh request, and refuses
to set a record whose name starts with `r`. Setting any other record to `0`
asks for a reconfiguration, to `9` gives an action value outside the
enumeration, and to anything else asks for a restart. Its `ctime_r` gives
NULL for a negative time. -/
def sampleApi : Api Nat SampleRecord String where
  fetch := fun s name =>
    if name.front = 'x' ∨ s = 6 then ⟨5, ⟨"", 4, 0, ""⟩, s + 1⟩
    else ⟨0, ⟨name, 1, 42, "42"⟩, s + 1⟩
  matchList := fun s pattern =>
    if pattern.front = 'x' then ⟨5, [], s + 1⟩
    else ⟨0, [⟨pattern ++ ".a", 0, 1, "1"⟩, ⟨pattern ++ ".b", 3, 0, "on"⟩], s + 1⟩
  describe := fun s name =>
    if name.front = 'x' then ⟨5, ⟨"", "", "", 4, 0, 0, 0, 0, 0, "", 0, 0, 0⟩, s + 1⟩
    else if name.front = 'l' then ⟨0, ⟨name, "1", "1", 0, 16, 0, 1, 0, 2, "", 0, 3, -1⟩, s + 1⟩
    else ⟨0, ⟨name, "8080", "8080", 3, 1, 0, 2, 0, 1, "^[0-9]+$", 0, 7, -1⟩, s + 1⟩
  recordSet := fun s name value =>
    if name.front = 'r' then ⟨8, 4, s + 1⟩
    else if value = "0" then ⟨0, 3, s + 1⟩
    else if value = "9" then ⟨0, 9, s + 1⟩
    else ⟨0, 1, s + 1⟩
  reconfigure := fun s => (0, s + 1)
  name := SampleRecord.name
  type := SampleRecord.type
  as_int := SampleRecord.as_int
  c_str := SampleRecord.text
  c_str_of := fun _ v => v
  ctime_r := fun tm => if tm < 0 then none else some (toString tm ++ "\n")
  usageCode := fun _ => 2

/-! ## Properties of the name tables -/

theorem rec_typeof_ne_empty (k : Consts) (n : Int) : rec_typeof k n ≠ "" := by
  unfold rec_typeof; split_ifs <;> decide

theorem rec_classof_ne_empty (k : Consts) (n : Int) : rec_classof k n ≠ "" := by
  unfold rec_classof; split_ifs <;> decide

theorem rec_accessof_ne_empty (k : Consts) (n : Int) : rec_accessof k n ≠ "" := by
  unfold rec_accessof; split_ifs <;> decide

theorem rec_updateof_ne_empty (k : Consts) (n : Int) : rec_updateof k n ≠ "" := by
  unfold rec_updateof; split_ifs <;> decide

theorem rec_checkof_ne_empty (k : Consts) (n : Int) : rec_checkof k n ≠ "" := by
  unfold rec_checkof; split_ifs <;> decide

/-- C8: each of rec_typeof, rec_classof, rec_accessof, rec_updateof and
rec_checkof is a total function of its integer argument: at each enumerator
named by a case label it gives the name written at that label (an
enumerator that falls through to the default arm gives the default name), at
every integer that is no case label it gives the default name ("UNDEFINED",
"undefined", "default", "none", "none"), and it never gives the empty
string. -/
theorem rec_names_total (k : Consts)
    (hT : k.TypeLabelsDistinct) (hC : k.ClassLabelsDistinct) (hA : k.AccessLabelsDistinct)
    (hU : k.UpdateLabelsDistinct) (hK : k.CheckLabelsDistinct) :
    (rec_typeof k k.TS_REC_INT = "INT" ∧ rec_typeof k k.TS_REC_COUNTER = "COUNTER"
      ∧ rec_typeof k k.TS_REC_FLOAT = "FLOAT" ∧ rec_typeof k k.TS_REC_STRING = "STRING"
      ∧ rec_typeof k k.TS_REC_UNDEFINED = "UNDEFINED"
      ∧ (∀ n : Int, n ∉ [k.TS_REC_INT, k.TS_REC_COUNTER, k.TS_REC_FLOAT, k.TS_REC_STRING,
            k.TS_REC_UNDEFINED] → rec_typeof k n = "UNDEFINED")
      ∧ ∀ n : Int, rec_typeof k n ≠ "")
    ∧ (rec_classof k k.RECT_CONFIG = "standard config"
      ∧ rec_classof k k.RECT_LOCAL = "local config"
      ∧ rec_classof k k.RECT_PROCESS = "process metric"
      ∧ rec_classof k k.RECT_NODE = "node metric"
      ∧ rec_classof k k.RECT_CLUSTER = "cluster metric"
      ∧ rec_classof k k.RECT_PLUGIN = "plugin metric"
      ∧ (∀ n : Int, n ∉ [k.RECT_CONFIG, k.RECT_LOCAL, k.RECT_PROCESS, k.RECT_NODE,
            k.RECT_CLUSTER, k.RECT_PLUGIN] → rec_classof k n = "undefined")
      ∧ ∀ n : Int, rec_classof k n ≠ "")
    ∧ (rec_accessof k k.RECA_NO_ACCESS = "no access"
      ∧ rec_accessof k k.RECA_READ_ONLY = "read only"
      ∧ rec_accessof k k.RECA_NULL = "default"
      ∧ (∀ n : Int, n ∉ [k.RECA_NO_ACCESS, k.RECA_READ_ONLY, k.RECA_NULL] →
            rec_accessof k n = "default")
      ∧ ∀ n : Int, rec_accessof k n ≠ "")
    ∧ (rec_updateof k k.RECU_DYNAMIC = "dynamic, no restart"
      ∧ rec_updateof k k.RECU_RESTART_TS = "static, restart traffic_server"
      ∧ rec_updateof k k.RECU_RESTART_TM = "static, restart traffic_manager"
      ∧ rec_updateof k k.RECU_RESTART_TC = "static, full restart"
      ∧ rec_updateof k k.RECU_NULL = "none"
      ∧ (∀ n : Int, n ∉ [k.RECU_DYNAMIC, k.RECU_RESTART_TS, k.RECU_RESTART_TM,
            k.RECU_RESTART_TC, k.RECU_NULL] → rec_updateof k n = "none")
      ∧ ∀ n : Int, rec_updateof k n ≠ "")
    ∧ (rec_checkof k k.RECC_STR = "string matching a regular expression"
      ∧ rec_checkof k k.RECC_INT = "integer with a specified range"
      ∧ rec_checkof k k.RECC_IP = "IP address"
      ∧ rec_checkof k k.RECC_NULL = "none"
      ∧ (∀ n : Int, n ∉ [k.RECC_STR, k.RECC_INT, k.RECC_IP, k.RECC_NULL] →
            rec_checkof k n = "none")
      ∧ ∀ n : Int, rec_checkof k n ≠ "") := by
  simp only [Consts.TypeLabelsDistinct, Consts.ClassLabelsDistinct, Consts.AccessLabelsDistinct,
    Consts.UpdateLabelsDistinct, Consts.CheckLabelsDistinct, List.nodup_cons, List.mem_cons,
    List.mem_singleton, not_or, List.not_mem_nil, not_false_eq_true, List.nodup_nil,
    and_true] at hT hC hA hU hK
  obtain ⟨⟨t1, t2, t3, t4⟩, ⟨t5, t6, t7⟩, ⟨t8, t9⟩, t10⟩ := hT
  obtain ⟨⟨c1, c2, c3, c4, c5⟩, ⟨c6, c7, c8, c9⟩, ⟨c10, c11, c12⟩, ⟨c13, c14⟩, c15⟩ := hC
  obtain ⟨⟨a1, a2⟩, a3⟩ := hA
  obtain ⟨⟨u1, u2, u3, u4⟩, ⟨u5, u6, u7⟩, ⟨u8, u9⟩, u10⟩ := hU
  obtain ⟨⟨k1, k2, k3⟩, ⟨k4, k5⟩, k6⟩ := hK
  refine ⟨⟨?_, ?_, ?_, ?_, ?_, ?_, rec_typeof_ne_empty k⟩,
    ⟨?_, ?_, ?_, ?_, ?_, ?_, ?_, rec_classof_ne_empty k⟩,
    ⟨?_, ?_, ?_, ?_, rec_accessof_ne_empty k⟩,
    ⟨?_, ?_, ?_, ?_, ?_, ?_, rec_updateof_ne_empty k⟩,
    ⟨?_, ?_, ?_, ?_, ?_, rec_checkof_ne_empty k⟩⟩
  all_goals
    first
    | (intro n hn
       simp only [List.mem_cons, List.mem_singleton, not_or, List.not_mem_nil,
         not_false_eq_true, and_true] at hn
       simp [rec_typeof, rec_classof, rec_accessof, rec_updateof, rec_checkof, hn])
    | simp [rec_typeof, rec_classof, rec_accessof, rec_updateof, rec_checkof, *, Ne.symm, eq_comm]

theorem rec_names_total_witness :
    (rec_typeof sampleConsts sampleConsts.TS_REC_COUNTER = "COUNTER"
      ∧ rec_accessof sampleConsts sampleConsts.RECA_NULL = "default"
      ∧ rec_typeof sampleConsts 77 = "UNDEFINED"
      ∧ rec_checkof sampleConsts (-1) = "none") :=
  have h := rec_names_total sampleConsts (by decide) (by decide) (by decide) (by decide)
    (by decide)
  ⟨h.1.2.1, h.2.2.1.2.2.1, h.1.2.2.2.2.2.1 77 (by decide), h.2.2.2.2.2.2.2.2.1 (-1) (by decide)⟩

/-! ## Strings -/

theorem str_append_right_inj (a b c : String) : a ++ b = a ++ c ↔ b = c := by
  constructor
  · intro h
    have h2 := congrArg String.data h
    simp only [String.data_append] at h2
    exact String.ext (List.append_cancel_left h2)
  · intro h; rw [h]

theorem str_length_eq_zero (s : String) : s.length = 0 ↔ s = "" := by
  constructor
  · intro h
    apply String.ext
    have h2 : s.data.length = 0 := h
    rw [List.length_eq_zero] at h2
    rw [h2]
  · intro h; subst h; rfl

theorem set_shutdown_ne_restart (name : String) :
    "set " ++ name ++ ", full shutdown required\n" ≠ "set " ++ name ++ ", restart required\n" := by
  rw [Ne, str_append_right_inj]; decide

theorem set_shutdown_ne_plain (name : String) :
    "set " ++ name ++ ", full shutdown required\n" ≠ "set " ++ name ++ "\n" := by
  rw [Ne, str_append_right_inj]; decide

theorem set_restart_ne_plain (name : String) :
    "set " ++ name ++ ", restart required\n" ≠ "set " ++ name ++ "\n" := by
  rw [Ne, str_append_right_inj]; decide

/-! ## format_record -/

section FormatRecord

variable {σ ρ V : Type}

theorem format_record_eq (k : Consts) (api : Api σ ρ V) (record : ρ) (recfmt : Bool)
    (w : World σ) :
    format_record k api record recfmt w
      = { w with out := w.out ++ [record_line k api record recfmt] } := by
  unfold format_record record_line printf
  cases recfmt <;> simp

/-- C9: for every fetched record, format_record writes exactly one line and
changes nothing else. In records format the line is
"CONFIG <name> <TYPE> <value>" with TYPE the rec_typeof name of the
record's type; otherwise it is "<name>: <value>". Name and value are the
record's name and rendered value text, unchanged; nothing else about the
record (its class included) has any influence. -/
theorem format_record_one_line (k : Consts) (api : Api σ ρ V) (record : ρ) (w : World σ) :
    (format_record k api record true w).out
        = w.out ++ ["CONFIG " ++ api.name record ++ " " ++ rec_typeof k (api.type record)
            ++ " " ++ api.c_str record ++ "\n"]
    ∧ (format_record k api record false w).out
        = w.out ++ [api.name record ++ ": " ++ api.c_str record ++ "\n"]
    ∧ (∀ recfmt : Bool,
        (format_record k api record recfmt w).out.length = w.out.length + 1
        ∧ (format_record k api record recfmt w).service = w.service
        ∧ (format_record k api record recfmt w).diag = w.diag
        ∧ (format_record k api record recfmt w).requests = w.requests)
    ∧ (∀ (other : ρ) (recfmt : Bool), api.name other = api.name record →
        api.type other = api.type record → api.c_str other = api.c_str record →
        format_record k api other recfmt w = format_record k api record recfmt w) := by
  refine ⟨?_, ?_, ?_, ?_⟩
  · simp [format_record_eq, record_line]
  · simp [format_record_eq, record_line]
  · intro recfmt
    simp [format_record_eq]
  · intro other recfmt h1 h2 h3
    simp [format_record_eq, record_line, h1, h2, h3]

theorem format_record_one_line_witness :
    (format_record sampleConsts sampleApi ⟨"proxy.node.num", 1, 42, "42"⟩ true (World.start 0)).out
      = ["CONFIG proxy.node.num COUNTER 42\n"]
    ∧ (format_record sampleConsts sampleApi ⟨"proxy.node.num", 1, 42, "42"⟩ false
        (World.start 0)).out = ["proxy.node.num: 42\n"] :=
  have h := format_record_one_line sampleConsts sampleApi ⟨"proxy.node.num", 1, 42, "42"⟩
    (World.start 0)
  ⟨h.1.trans (by decide), h.2.1.trans (by decide)⟩

end FormatRecord

/-! ## config_set -/

section ConfigSet

variable {σ ρ V : Type}

theorem config_set_ok (k : Consts) (api : Api σ ρ V) (a : Args) (w : World σ)
    (name value : String) (hp : a.parsed = true) (hf : a.file_arguments = [name, value])
    (hok : (api.recordSet w.service name value).error = k.TS_ERR_OKAY) :
    config_set k api a w
      = (k.CTRL_EX_OK, config_set_report k name (api.recordSet w.service name value).value
          { w with service := (api.recordSet w.service name value).state,
                   requests := w.requests ++ [Request.recordSet name value] }) := by
  simp [config_set, hp, hf, TSRecordSet, hok]

theorem config_set_fail (k : Consts) (api : Api σ ρ V) (a : Args) (w : World σ)
    (name value : String) (hp : a.parsed = true) (hf : a.file_arguments = [name, value])
    (herr : (api.recordSet w.service name value).error ≠ k.TS_ERR_OKAY) :
    config_set k api a w
      = (k.CTRL_EX_ERROR,
          { service := (api.recordSet w.service name value).state,
            out := w.out,
            diag := w.diag ++ [Diag.mgmtError (api.recordSet w.service name value).error
              (some ("failed to set " ++ name))],
            requests := w.requests ++ [Request.recordSet name value] }) := by
  simp [config_set, hp, hf, TSRecordSet, herr, CtrlMgmtError]

/-- C1: when the service accepts the set (TSRecordSet returns TS_ERR_OKAY),
whatever the record name and the action value, config_set returns
CTRL_EX_OK and writes at most one line, chosen by one arm of the switch:
a full-shutdown action writes exactly "set <name>, full shutdown required",
a restart action writes exactly "set <name>, restart required", the
shutdown line is written only for the shutdown action and the restart line
only for the restart action, and no call writes both. -/
theorem config_set_one_outcome (k : Consts) (api : Api σ ρ V) (a : Args) (w : World σ)
    (name value : String) (hD : k.ActionLabelsDistinct)
    (hp : a.parsed = true) (hf : a.file_arguments = [name, value])
    (hok : (api.recordSet w.service name value).error = k.TS_ERR_OKAY) :
    (config_set k api a w).1 = k.CTRL_EX_OK
    ∧ ∃ msgs : List String,
        (config_set k api a w).2.out = w.out ++ msgs
        ∧ msgs.length ≤ 1
        ∧ (msgs = ["set " ++ name ++ ", full shutdown required\n"]
            ∨ msgs = ["set " ++ name ++ ", restart required\n"]
            ∨ msgs = []
            ∨ msgs = ["set " ++ name ++ "\n"])
        ∧ ((api.recordSet w.service name value).value = k.TS_ACTION_SHUTDOWN
            ↔ msgs = ["set " ++ name ++ ", full shutdown required\n"])
        ∧ ((api.recordSet w.service name value).value = k.TS_ACTION_RESTART
            ↔ msgs = ["set " ++ name ++ ", restart required\n"])
        ∧ ¬ ("set " ++ name ++ ", full shutdown required\n" ∈ msgs
              ∧ "set " ++ name ++ ", restart required\n" ∈ msgs) := by
  rw [config_set_ok k api a w name value hp hf hok]
  simp only [Consts.ActionLabelsDistinct, List.nodup_cons, List.mem_cons,
    List.mem_singleton, not_or, List.not_mem_nil, not_false_eq_true, List.nodup_nil,
    and_true] at hD
  obtain ⟨⟨d1, d2, d3⟩, ⟨d4, d5⟩, d6⟩ := hD
  have n1 := set_shutdown_ne_restart name
  have n2 := set_shutdown_ne_plain name
  have n3 := set_restart_ne_plain name
  refine ⟨rfl, ?_⟩
  generalize (api.recordSet w.service name value).value = action
  unfold config_set_report printf
  by_cases h1 : action = k.TS_ACTION_SHUTDOWN
  · refine ⟨["set " ++ name ++ ", full shutdown required\n"], ?_⟩
    simp [h1, d1, n1, Ne.symm n1]
  · by_cases h2 : action = k.TS_ACTION_RESTART
    · refine ⟨["set " ++ name ++ ", restart required\n"], ?_⟩
      simp [h2, Ne.symm d1, n1, Ne.symm n1]
    · by_cases h3 : action = k.TS_ACTION_RECONFIGURE
      · refine ⟨[], ?_⟩
        simp [h3, Ne.symm d2, Ne.symm d4]
      · refine ⟨["set " ++ name ++ "\n"], ?_⟩
        simp [h1, h2, h3, n2, n3, Ne.symm n2, Ne.symm n3]

theorem config_set_one_outcome_witness :
    sampleConsts.ActionLabelsDistinct
    ∧ (sampleApi.recordSet 0 "proxy.config.http.cache.http" "1").error = sampleConsts.TS_ERR_OKAY
    ∧ (config_set sampleConsts sampleApi ⟨true, 0, ["proxy.config.http.cache.http", "1"]⟩
        (World.start 0)).1 = sampleConsts.CTRL_EX_OK :=
  ⟨by decide, by decide,
    (config_set_one_outcome sampleConsts sampleApi
      ⟨true, 0, ["proxy.config.http.cache.http", "1"]⟩ (World.start 0)
      "proxy.config.http.cache.http" "1" (by decide) rfl rfl (by decide)).1⟩

/-- C2: when the service rejects the set (TSRecordSet returns anything other
than TS_ERR_OKAY, such as an access-denied rejection), whatever the record
name and the value text, config_set returns CTRL_EX_ERROR, which is nonzero,
writes nothing to standard output (so none of the "set <name>..." lines),
and reports the error once through CtrlMgmtError. -/
theorem config_set_rejected (k : Consts) (api : Api σ ρ V) (a : Args) (w : World σ)
    (name value : String) (hE : k.ExitConvention)
    (hp : a.parsed = true) (hf : a.file_arguments = [name, value])
    (herr : (api.recordSet w.service name value).error ≠ k.TS_ERR_OKAY) :
    (config_set k api a w).1 = k.CTRL_EX_ERROR
    ∧ (config_set k api a w).1 ≠ 0
    ∧ (config_set k api a w).2.out = w.out
    ∧ (config_set k api a w).2.diag
        = w.diag ++ [Diag.mgmtError (api.recordSet w.service name value).error
            (some ("failed to set " ++ name))] := by
  rw [config_set_fail k api a w name value hp hf herr]
  exact ⟨rfl, hE.2, rfl, rfl⟩

theorem config_set_rejected_witness :
    sampleConsts.ExitConvention
    ∧ (sampleApi.recordSet 0 "reserved.record" "1").error ≠ sampleConsts.TS_ERR_OKAY
    ∧ (config_set sampleConsts sampleApi ⟨true, 0, ["reserved.record", "1"]⟩
        (World.start 0)).2.out = [] :=
  ⟨by decide, by decide,
    (config_set_rejected sampleConsts sampleApi ⟨true, 0, ["reserved.record", "1"]⟩
      (World.start 0) "reserved.record" "1" (by decide) rfl rfl (by decide)).2.2.1⟩

/-- C10: after a successful set, the reconfigure action makes config_set
write nothing and return CTRL_EX_OK; every action value that is none of
shutdown, restart and reconfigure (the dynamic action or any other integer)
makes it write exactly "set <name>" and return CTRL_EX_OK. -/
theorem config_set_quiet_and_plain (k : Consts) (api : Api σ ρ V) (a : Args) (w : World σ)
    (name value : String) (hD : k.ActionLabelsDistinct)
    (hp : a.parsed = true) (hf : a.file_arguments = [name, value])
    (hok : (api.recordSet w.service name value).error = k.TS_ERR_OKAY) :
    (config_set k api a w).1 = k.CTRL_EX_OK
    ∧ ((api.recordSet w.service name value).value = k.TS_ACTION_RECONFIGURE →
        (config_set k api a w).2.out = w.out)
    ∧ ((api.recordSet w.service name value).value ≠ k.TS_ACTION_SHUTDOWN →
        (api.recordSet w.service name value).value ≠ k.TS_ACTION_RESTART →
        (api.recordSet w.service name value).value ≠ k.TS_ACTION_RECONFIGURE →
        (config_set k api a w).2.out = w.out ++ ["set " ++ name ++ "\n"]) := by
  rw [config_set_ok k api a w name value hp hf hok]
  simp only [Consts.ActionLabelsDistinct, List.nodup_cons, List.mem_cons,
    List.mem_singleton, not_or, List.not_mem_nil, not_false_eq_true, List.nodup_nil,
    and_true] at hD
  obtain ⟨⟨d1, d2, d3⟩, ⟨d4, d5⟩, d6⟩ := hD
  generalize (api.recordSet w.service name value).value = action
  refine ⟨rfl, ?_, ?_⟩
  · intro h3
    simp [config_set_report, h3, Ne.symm d2, Ne.symm d4]
  · intro h1 h2 h3
    simp [config_set_report, printf, h1, h2, h3]

theorem config_set_quiet_and_plain_witness :
    sampleConsts.ActionLabelsDistinct
    ∧ (sampleApi.recordSet 0 "proxy.config.diags.debug.enabled" "0").error
        = sampleConsts.TS_ERR_OKAY
    ∧ (sampleApi.recordSet 0 "proxy.config.diags.debug.enabled" "0").value
        = sampleConsts.TS_ACTION_RECONFIGURE
    ∧ (config_set sampleConsts sampleApi ⟨true, 0, ["proxy.config.diags.debug.enabled", "0"]⟩
        (World.start 0)).2.out = [] :=
  ⟨by decide, by decide, by decide,
    (config_set_quiet_and_plain sampleConsts sampleApi
      ⟨true, 0, ["proxy.config.diags.debug.enabled", "0"]⟩ (World.start 0)
      "proxy.config.diags.debug.enabled" "0" (by decide) rfl rfl (by decide)).2.1 (by decide)⟩

end ConfigSet

/-! ## config_status -/

section ConfigStatus

variable {σ ρ V : Type}

theorem config_status_print_out (k : Consts) (api : Api σ ρ V)
    (version starttime configtime reconfig proxy manager cop : ρ) (w : World σ)
    (h1 : (timestr api (api.as_int starttime)).isSome = true)
    (h2 : (timestr api (api.as_int configtime)).isSome = true) :
    (config_status_print k api version starttime configtime reconfig proxy manager cop w).1
        = some k.CTRL_EX_OK
    ∧ ∃ lines : List String,
        (config_status_print k api version starttime configtime reconfig proxy manager cop w).2.out
          = w.out ++ lines
        ∧ 4 ≤ lines.length ∧ lines.length ≤ 7
        ∧ lines.head? = some (api.c_str version ++ "\n") := by
  obtain ⟨started, hs⟩ := Option.isSome_iff_exists.mp h1
  obtain ⟨configured, hc⟩ := Option.isSome_iff_exists.mp h2
  unfold config_status_print printf
  simp only [hs, hc]
  refine ⟨trivial, ?_⟩
  by_cases h1 : api.as_int proxy = 0 <;> by_cases h2 : api.as_int manager = 0 <;>
    by_cases h3 : api.as_int cop = 0 <;> simp [h1, h2, h3]

/-- When `ctime_r` gives NULL for the start time, `config_status_print` has
written the version line and does not return. -/
theorem config_status_print_stops (k : Consts) (api : Api σ ρ V)
    (version starttime configtime reconfig proxy manager cop : ρ) (w : World σ)
    (h1 : timestr api (api.as_int starttime) = none) :
    config_status_print k api version starttime configtime reconfig proxy manager cop w
      = (none, { w with out := w.out ++ [api.c_str version ++ "\n"] }) := by
  unfold config_status_print printf
  simp only [h1]

theorem config_status_unfold (k : Consts) (api : Api σ ρ V) (a : Args) (w : World σ)
    (hp : a.parsed = true) (hf : a.file_arguments = []) :
    config_status k api a w =
      CTRL_MGMT_CHECK k (fetch api "proxy.process.version.server.long" w) fun version w =>
      CTRL_MGMT_CHECK k (fetch api "proxy.node.restarts.proxy.start_time" w) fun starttime w =>
      CTRL_MGMT_CHECK k (fetch api "proxy.node.config.reconfigure_time" w) fun configtime w =>
      CTRL_MGMT_CHECK k (fetch api "proxy.node.config.reconfigure_required" w) fun reconfig w =>
      CTRL_MGMT_CHECK k (fetch api "proxy.node.config.restart_required.proxy" w) fun proxy w =>
      CTRL_MGMT_CHECK k (fetch api "proxy.node.config.restart_required.manager" w)
        fun manager w =>
      CTRL_MGMT_CHECK k (fetch api "proxy.node.config.restart_required.cop" w) fun cop w =>
      config_status_print k api version starttime configtime reconfig proxy manager cop w := by
  simp [config_status, hp, hf]

/-- The outcome of `config_status` in terms of the replies to its fetches:
either every reply of the seven is a success and the command goes on to its
print statements with standard output as it was, or some reply is a failure,
the result is CTRL_EX_ERROR and standard output is as it was. -/
theorem config_status_cases (k : Consts) (api : Api σ ρ V) (a : Args) (w : World σ)
    (hp : a.parsed = true) (hf : a.file_arguments = []) :
    ((∀ r ∈ fetch_replies api status_records w.service, r.error = k.TS_ERR_OKAY)
      ∧ ∃ (r1 r2 r3 r4 r5 r6 r7 : Reply ρ σ) (w1 : World σ),
          fetch_replies api status_records w.service = [r1, r2, r3, r4, r5, r6, r7]
          ∧ w1.out = w.out
          ∧ config_status k api a w
              = config_status_print k api r1.value r2.value r3.value r4.value r5.value
                  r6.value r7.value w1)
    ∨ ((∃ r ∈ fetch_replies api status_records w.service, r.error ≠ k.TS_ERR_OKAY)
      ∧ (config_status k api a w).1 = some k.CTRL_EX_ERROR
      ∧ (config_status k api a w).2.out = w.out) := by
  rw [config_status_unfold k api a w hp hf]
  simp only [fetch_replies, status_records, CTRL_MGMT_CHECK, fetch]
  by_cases h1 : (api.fetch w.service "proxy.process.version.server.long").error = k.TS_ERR_OKAY
  swap
  · right; simp [h1, CtrlMgmtError]
  generalize api.fetch w.service "proxy.process.version.server.long" = r1 at h1 ⊢
  by_cases h2 : (api.fetch r1.state "proxy.node.restarts.proxy.start_time").error = k.TS_ERR_OKAY
  swap
  · right; simp [h1, h2, CtrlMgmtError]
  generalize api.fetch r1.state "proxy.node.restarts.proxy.start_time" = r2 at h2 ⊢
  by_cases h3 : (api.fetch r2.state "proxy.node.config.reconfigure_time").error = k.TS_ERR_OKAY
  swap
  · right; simp [h1, h2, h3, CtrlMgmtError]
  generalize api.fetch r2.state "proxy.node.config.reconfigure_time" = r3 at h3 ⊢
  by_cases h4 : (api.fetch r3.state "proxy.node.config.reconfigure_required").error
      = k.TS_ERR_OKAY
  swap
  · right; simp [h1, h2, h3, h4, CtrlMgmtError]
  generalize api.fetch r3.state "proxy.node.config.reconfigure_required" = r4 at h4 ⊢
  by_cases h5 : (api.fetch r4.state "proxy.node.config.restart_required.proxy").error
      = k.TS_ERR_OKAY
  swap
  · right; simp [h1, h2, h3, h4, h5, CtrlMgmtError]
  generalize api.fetch r4.state "proxy.node.config.restart_required.proxy" = r5 at h5 ⊢
  by_cases h6 : (api.fetch r5.state "proxy.node.config.restart_required.manager").error
      = k.TS_ERR_OKAY
  swap
  · right; simp [h1, h2, h3, h4, h5, h6, CtrlMgmtError]
  generalize api.fetch r5.state "proxy.node.config.restart_required.manager" = r6 at h6 ⊢
  by_cases h7 : (api.fetch r6.state "proxy.node.config.restart_required.cop").error
      = k.TS_ERR_OKAY
  swap
  · right; simp [h1, h2, h3, h4, h5, h6, h7, CtrlMgmtError]
  generalize api.fetch r6.state "proxy.node.config.restart_required.cop" = r7 at h7 ⊢
  left
  simp only [h1, h2, h3, h4, h5, h6, h7, ne_eq, not_true_eq_false, if_false]
  refine ⟨by simp [h1, h2, h3, h4, h5, h6, h7], r1, r2, r3, r4, r5, r6, r7, _, rfl, ?_, rfl⟩
  rfl

/-- C3: config_status is all-or-nothing. If any of the replies to its seven
fetches is a failure, whichever it is and whatever the others are,
config_status returns CTRL_EX_ERROR (nonzero) and writes no status line.
Status lines are written, and CTRL_EX_OK returned, only when all seven
fetches succeed. When all seven succeed and ctime_r renders the start time
and the reconfiguration time, config_status returns CTRL_EX_OK and writes
the status lines (at least the version, start time, last reconfiguration
and reconfigure-required lines). -/
theorem config_status_all_or_nothing (k : Consts) (api : Api σ ρ V) (a : Args) (w : World σ)
    (hE : k.ExitConvention) (hp : a.parsed = true) (hf : a.file_arguments = []) :
    (fetch_replies api status_records w.service).length = 7
    ∧ ((∃ r ∈ fetch_replies api status_records w.service, r.error ≠ k.TS_ERR_OKAY) →
        (config_status k api a w).1 = some k.CTRL_EX_ERROR
        ∧ k.CTRL_EX_ERROR ≠ 0
        ∧ (config_status k api a w).2.out = w.out)
    ∧ ((config_status k api a w).2.out ≠ w.out →
        ∀ r ∈ fetch_replies api status_records w.service, r.error = k.TS_ERR_OKAY)
    ∧ ((config_status k api a w).1 = some k.CTRL_EX_OK →
        ∀ r ∈ fetch_replies api status_records w.service, r.error = k.TS_ERR_OKAY)
    ∧ (∀ starttime configtime : Reply ρ σ,
        (∀ r ∈ fetch_replies api status_records w.service, r.error = k.TS_ERR_OKAY) →
        (fetch_replies api status_records w.service)[1]? = some starttime →
        (fetch_replies api status_records w.service)[2]? = some configtime →
        (timestr api (api.as_int starttime.value)).isSome = true →
        (timestr api (api.as_int configtime.value)).isSome = true →
        (config_status k api a w).1 = some k.CTRL_EX_OK
        ∧ ∃ lines : List String, (config_status k api a w).2.out = w.out ++ lines
            ∧ 4 ≤ lines.length) := by
  have hne : k.CTRL_EX_ERROR ≠ k.CTRL_EX_OK := by
    rw [hE.1]; exact hE.2
  refine ⟨by simp [fetch_replies, status_records], ?_, ?_, ?_, ?_⟩
  · rintro ⟨r, hr, hbad⟩
    rcases config_status_cases k api a w hp hf with ⟨hall, _⟩ | ⟨_, hret, hout⟩
    · exact absurd (hall r hr) hbad
    · exact ⟨hret, hE.2, hout⟩
  · intro hout
    rcases config_status_cases k api a w hp hf with ⟨hall, _⟩ | ⟨_, _, hsame⟩
    · exact hall
    · exact absurd hsame hout
  · intro hret
    rcases config_status_cases k api a w hp hf with ⟨hall, _⟩ | ⟨_, hbad, _⟩
    · exact hall
    · rw [hret] at hbad
      exact absurd (Option.some.inj hbad).symm hne
  · intro starttime configtime hall hs hc hts htc
    rcases config_status_cases k api a w hp hf with
      ⟨_, r1, r2, r3, r4, r5, r6, r7, w1, hrep, hw1, heq⟩ | ⟨⟨r, hr, hbad⟩, _, _⟩
    · rw [hrep] at hs hc
      simp only [List.getElem?_cons_succ, List.getElem?_cons_zero, Option.some.injEq] at hs hc
      subst hs hc
      obtain ⟨hret, lines, hout, hlo, _, _⟩ := config_status_print_out k api r1.value r2.value
        r3.value r4.value r5.value r6.value r7.value w1 hts htc
      rw [heq]
      exact ⟨hret, lines, by rw [hout, hw1], hlo⟩
    · exact absurd (hall r hr) hbad

theorem config_status_all_or_nothing_witness :
    sampleConsts.ExitConvention
    ∧ (∃ r ∈ fetch_replies sampleApi status_records (World.start 0).service,
        r.error ≠ sampleConsts.TS_ERR_OKAY)
    ∧ (config_status sampleConsts sampleApi ⟨true, 0, []⟩ (World.start 0)).1
        = some sampleConsts.CTRL_EX_ERROR
    ∧ (config_status sampleConsts sampleApi ⟨true, 0, []⟩ (World.start 0)).2.out = []
    ∧ (∀ r ∈ fetch_replies sampleApi status_records (World.start 10).service,
        r.error = sampleConsts.TS_ERR_OKAY)
    ∧ (config_status sampleConsts sampleApi ⟨true, 0, []⟩ (World.start 10)).1
        = some sampleConsts.CTRL_EX_OK :=
  have h := (config_status_all_or_nothing sampleConsts sampleApi ⟨true, 0, []⟩ (World.start 0)
    (by decide) rfl rfl).2.1 (by decide)
  have h10 := (config_status_all_or_nothing sampleConsts sampleApi ⟨true, 0, []⟩
    (World.start 10) (by decide) rfl rfl).2.2.2.2
    (sampleApi.fetch 11 "proxy.node.restarts.proxy.start_time")
    (sampleApi.fetch 12 "proxy.node.config.reconfigure_time")
    (by decide) rfl rfl (by decide) (by decide)
  ⟨by decide, by decide, h.1, h.2.2, by decide, h10.1⟩

end ConfigStatus

/-! ## config_get and config_match -/

section Loops

variable {σ ρ V : Type}

theorem config_match_consume_eq (k : Consts) (api : Api σ ρ V) (recfmt : Int)
    (reclist : CtrlMgmtRecordList ρ) (w : World σ) :
    config_match_consume k api recfmt reclist w
      = ([], { w with out := w.out ++ reclist.map fun record =>
                record_line k api record (recfmt != 0) }) := by
  induction reclist generalizing w with
  | nil =>
    rw [config_match_consume]
    simp [CtrlMgmtRecordList.empty]
  | cons record rest ih =>
    rw [config_match_consume]
    simp [CtrlMgmtRecordList.empty, CtrlMgmtRecordList.next, ih, format_record_eq]

theorem config_get_loop_fail (k : Consts) (api : Api σ ρ V) (recfmt : Int)
    (args : List String) (w : World σ) (i : Nat)
    (hpre : ∀ r ∈ (fetch_replies api args w.service).take i, r.error = k.TS_ERR_OKAY)
    (hbad : ∃ r, (fetch_replies api args w.service)[i]? = some r ∧ r.error ≠ k.TS_ERR_OKAY) :
    (config_get_loop k api recfmt args w).1 = k.CTRL_EX_ERROR
    ∧ (config_get_loop k api recfmt args w).2.out
        = w.out ++ ((fetch_replies api args w.service).take i).map
            (fun r => record_line k api r.value (recfmt != 0))
    ∧ (config_get_loop k api recfmt args w).2.requests
        = w.requests ++ (args.take (i + 1)).map Request.fetch := by
  induction args generalizing w i with
  | nil =>
    obtain ⟨r, hr, _⟩ := hbad
    simp [fetch_replies] at hr
  | cons arg rest ih =>
    cases i with
    | zero =>
      obtain ⟨r, hr, hne⟩ := hbad
      simp only [fetch_replies, List.getElem?_cons_zero, Option.some.injEq] at hr
      subst hr
      simp [config_get_loop, fetch, hne, CtrlMgmtError]
    | succ i =>
      have h0 : (api.fetch w.service arg).error = k.TS_ERR_OKAY :=
        hpre _ (by simp [fetch_replies])
      have hpre2 : ∀ r ∈ (fetch_replies api rest (api.fetch w.service arg).state).take i,
          r.error = k.TS_ERR_OKAY := by
        intro r hr
        exact hpre r (by simp [fetch_replies, hr])
      have hbad2 : ∃ r, (fetch_replies api rest (api.fetch w.service arg).state)[i]? = some r
          ∧ r.error ≠ k.TS_ERR_OKAY := by
        simpa [fetch_replies] using hbad
      have h := ih (format_record k api (api.fetch w.service arg).value (recfmt != 0)
        { w with service := (api.fetch w.service arg).state,
                 requests := w.requests ++ [Request.fetch arg] }) i
        (by simpa [format_record_eq] using hpre2) (by simpa [format_record_eq] using hbad2)
      simp only [format_record_eq] at h
      simp [config_get_loop, fetch, h0, fetch_replies, format_record_eq, h]

theorem config_get_loop_any_fail (k : Consts) (api : Api σ ρ V) (recfmt : Int)
    (args : List String) (w : World σ)
    (hbad : ∃ r ∈ fetch_replies api args w.service, r.error ≠ k.TS_ERR_OKAY) :
    (config_get_loop k api recfmt args w).1 = k.CTRL_EX_ERROR := by
  induction args generalizing w with
  | nil => simp [fetch_replies] at hbad
  | cons arg rest ih =>
    by_cases h0 : (api.fetch w.service arg).error = k.TS_ERR_OKAY
    · have hbad2 : ∃ r ∈ fetch_replies api rest (api.fetch w.service arg).state,
          r.error ≠ k.TS_ERR_OKAY := by
        obtain ⟨r, hr, hne⟩ := hbad
        simp only [fetch_replies, List.mem_cons] at hr
        rcases hr with rfl | hr
        · exact absurd h0 hne
        · exact ⟨r, hr, hne⟩
      have h := ih (format_record k api (api.fetch w.service arg).value (recfmt != 0)
        { w with service := (api.fetch w.service arg).state,
                 requests := w.requests ++ [Request.fetch arg] })
        (by simpa [format_record_eq] using hbad2)
      simp [config_get_loop, fetch, h0, h]
    · simp [config_get_loop, fetch, h0]

theorem config_get_loop_all_ok (k : Consts) (api : Api σ ρ V) (recfmt : Int)
    (args : List String) (w : World σ)
    (hall : ∀ r ∈ fetch_replies api args w.service, r.error = k.TS_ERR_OKAY) :
    (config_get_loop k api recfmt args w).1 = k.CTRL_EX_OK := by
  induction args generalizing w with
  | nil => simp [config_get_loop]
  | cons arg rest ih =>
    have h0 : (api.fetch w.service arg).error = k.TS_ERR_OKAY :=
      hall _ (by simp [fetch_replies])
    have hall2 : ∀ r ∈ fetch_replies api rest (api.fetch w.service arg).state,
        r.error = k.TS_ERR_OKAY := by
      intro r hr
      exact hall r (by simp [fetch_replies, hr])
    have h := ih (format_record k api (api.fetch w.service arg).value (recfmt != 0)
      { w with service := (api.fetch w.service arg).state,
               requests := w.requests ++ [Request.fetch arg] })
      (by simpa [format_record_eq] using hall2)
    simp [config_get_loop, fetch, h0, h]

theorem config_match_loop_fail (k : Consts) (api : Api σ ρ V) (recfmt : Int)
    (args : List String) (w : World σ) (i : Nat)
    (hpre : ∀ r ∈ (match_replies api args w.service).take i, r.error = k.TS_ERR_OKAY)
    (hbad : ∃ r, (match_replies api args w.service)[i]? = some r ∧ r.error ≠ k.TS_ERR_OKAY) :
    (config_match_loop k api recfmt args w).1 = k.CTRL_EX_ERROR
    ∧ (config_match_loop k api recfmt args w).2.out
        = w.out ++ ((match_replies api args w.service).take i).flatMap
            (fun r => r.value.map (fun record => record_line k api record (recfmt != 0)))
    ∧ (config_match_loop k api recfmt args w).2.requests
        = w.requests ++ (args.take (i + 1)).map Request.matchList := by
  induction args generalizing w i with
  | nil =>
    obtain ⟨r, hr, _⟩ := hbad
    simp [match_replies] at hr
  | cons arg rest ih =>
    cases i with
    | zero =>
      obtain ⟨r, hr, hne⟩ := hbad
      simp only [match_replies, List.getElem?_cons_zero, Option.some.injEq] at hr
      subst hr
      simp [config_match_loop, matchList, hne, CtrlMgmtError]
    | succ i =>
      have h0 : (api.matchList w.service arg).error = k.TS_ERR_OKAY :=
        hpre _ (by simp [match_replies])
      have hpre2 : ∀ r ∈ (match_replies api rest (api.matchList w.service arg).state).take i,
          r.error = k.TS_ERR_OKAY := by
        intro r hr
        exact hpre r (by simp [match_replies, hr])
      have hbad2 : ∃ r, (match_replies api rest (api.matchList w.service arg).state)[i]?
          = some r ∧ r.error ≠ k.TS_ERR_OKAY := by
        simpa [match_replies] using hbad
      have h := ih (config_match_consume k api recfmt (api.matchList w.service arg).value
        { w with service := (api.matchList w.service arg).state,
                 requests := w.requests ++ [Request.matchList arg] }).2 i
        (by simpa [config_match_consume_eq] using hpre2)
        (by simpa [config_match_consume_eq] using hbad2)
      simp only [config_match_consume_eq] at h
      simp [config_match_loop, matchList, h0, match_replies, config_match_consume_eq, h]

theorem config_match_loop_any_fail (k : Consts) (api : Api σ ρ V) (recfmt : Int)
    (args : List String) (w : World σ)
    (hbad : ∃ r ∈ match_replies api args w.service, r.error ≠ k.TS_ERR_OKAY) :
    (config_match_loop k api recfmt args w).1 = k.CTRL_EX_ERROR := by
  induction args generalizing w with
  | nil => simp [match_replies] at hbad
  | cons arg rest ih =>
    by_cases h0 : (api.matchList w.service arg).error = k.TS_ERR_OKAY
    · have hbad2 : ∃ r ∈ match_replies api rest (api.matchList w.service arg).state,
          r.error ≠ k.TS_ERR_OKAY := by
        obtain ⟨r, hr, hne⟩ := hbad
        simp only [match_replies, List.mem_cons] at hr
        rcases hr with rfl | hr
        · exact absurd h0 hne
        · exact ⟨r, hr, hne⟩
      have h := ih (config_match_consume k api recfmt (api.matchList w.service arg).value
        { w with service := (api.matchList w.service arg).state,
                 requests := w.requests ++ [Request.matchList arg] }).2
        (by simpa [config_match_consume_eq] using hbad2)
      simp [config_match_loop, matchList, h0, h]
    · simp [config_match_loop, matchList, h0]

theorem config_match_loop_all_ok (k : Consts) (api : Api σ ρ V) (recfmt : Int)
    (args : List String) (w : World σ)
    (hall : ∀ r ∈ match_replies api args w.service, r.error = k.TS_ERR_OKAY) :
    (config_match_loop k api recfmt args w).1 = k.CTRL_EX_OK := by
  induction args generalizing w with
  | nil => simp [config_match_loop]
  | cons arg rest ih =>
    have h0 : (api.matchList w.service arg).error = k.TS_ERR_OKAY :=
      hall _ (by simp [match_replies])
    have hall2 : ∀ r ∈ match_replies api rest (api.matchList w.service arg).state,
        r.error = k.TS_ERR_OKAY := by
      intro r hr
      exact hall r (by simp [match_replies, hr])
    have h := ih (config_match_consume k api recfmt (api.matchList w.service arg).value
      { w with service := (api.matchList w.service arg).state,
               requests := w.requests ++ [Request.matchList arg] }).2
      (by simpa [config_match_consume_eq] using hall2)
    simp [config_match_loop, matchList, h0, h]

theorem config_get_nonempty (k : Consts) (api : Api σ ρ V) (a : Args) (w : World σ)
    (hp : a.parsed = true) (hne : a.file_arguments ≠ []) :
    config_get k api a w = config_get_loop k api a.recfmt a.file_arguments w := by
  have hlen : ¬ a.file_arguments.length < 1 := by
    cases hargs : a.file_arguments with
    | nil => exact absurd hargs hne
    | cons x xs => simp
  simp [config_get, hp, hlen]

theorem config_match_nonempty (k : Consts) (api : Api σ ρ V) (a : Args) (w : World σ)
    (hp : a.parsed = true) (hne : a.file_arguments ≠ []) :
    config_match k api a w = config_match_loop k api a.recfmt a.file_arguments w := by
  have hlen : ¬ a.file_arguments.length < 1 := by
    cases hargs : a.file_arguments with
    | nil => exact absurd hargs hne
    | cons x xs => simp
  simp [config_match, hp, hlen]

/-- C4: config_get over a non-empty list of record names, and config_match
over a non-empty list of patterns, stop at the first argument whose service
call fails. If the replies to the arguments before index i are successes and
the reply to argument i is a failure, the command returns CTRL_EX_ERROR
(nonzero), the requests it has sent are exactly those for the arguments up to
and including i (none for a later argument), and what it has written to
standard output is exactly the record lines of the replies before i. The
command returns CTRL_EX_OK (0) if and only if the reply to every argument is a
success. -/
theorem stops_at_first_failure (k : Consts) (api : Api σ ρ V) (a : Args) (w : World σ)
    (hE : k.ExitConvention) (hp : a.parsed = true) (hne : a.file_arguments ≠ []) :
    (∀ i : Nat,
      (∀ r ∈ (fetch_replies api a.file_arguments w.service).take i, r.error = k.TS_ERR_OKAY) →
      (∃ r, (fetch_replies api a.file_arguments w.service)[i]? = some r
        ∧ r.error ≠ k.TS_ERR_OKAY) →
      (config_get k api a w).1 = k.CTRL_EX_ERROR
      ∧ (config_get k api a w).1 ≠ 0
      ∧ (config_get k api a w).2.requests
          = w.requests ++ (a.file_arguments.take (i + 1)).map Request.fetch
      ∧ (config_get k api a w).2.out
          = w.out ++ ((fetch_replies api a.file_arguments w.service).take i).map
              (fun r => record_line k api r.value (a.recfmt != 0)))
    ∧ ((config_get k api a w).1 = k.CTRL_EX_OK ↔
        ∀ r ∈ fetch_replies api a.file_arguments w.service, r.error = k.TS_ERR_OKAY)
    ∧ ((config_get k api a w).1 = 0 ↔
        ∀ r ∈ fetch_replies api a.file_arguments w.service, r.error = k.TS_ERR_OKAY)
    ∧ (∀ i : Nat,
      (∀ r ∈ (match_replies api a.file_arguments w.service).take i, r.error = k.TS_ERR_OKAY) →
      (∃ r, (match_replies api a.file_arguments w.service)[i]? = some r
        ∧ r.error ≠ k.TS_ERR_OKAY) →
      (config_match k api a w).1 = k.CTRL_EX_ERROR
      ∧ (config_match k api a w).1 ≠ 0
      ∧ (config_match k api a w).2.requests
          = w.requests ++ (a.file_arguments.take (i + 1)).map Request.matchList
      ∧ (config_match k api a w).2.out
          = w.out ++ ((match_replies api a.file_arguments w.service).take i).flatMap
              (fun r => r.value.map (fun record => record_line k api record (a.recfmt != 0))))
    ∧ ((config_match k api a w).1 = k.CTRL_EX_OK ↔
        ∀ r ∈ match_replies api a.file_arguments w.service, r.error = k.TS_ERR_OKAY)
    ∧ ((config_match k api a w).1 = 0 ↔
        ∀ r ∈ match_replies api a.file_arguments w.service, r.error = k.TS_ERR_OKAY) := by
  have hne2 : k.CTRL_EX_ERROR ≠ k.CTRL_EX_OK := by
    rw [hE.1]; exact hE.2
  rw [config_get_nonempty k api a w hp hne, config_match_nonempty k api a w hp hne]
  have hget : (config_get_loop k api a.recfmt a.file_arguments w).1 = k.CTRL_EX_OK ↔
      ∀ r ∈ fetch_replies api a.file_arguments w.service, r.error = k.TS_ERR_OKAY := by
    constructor
    · intro hret
      by_contra hall
      push_neg at hall
      have h := config_get_loop_any_fail k api a.recfmt a.file_arguments w hall
      rw [hret] at h
      exact hne2 h.symm
    · exact config_get_loop_all_ok k api a.recfmt a.file_arguments w
  have hmatch : (config_match_loop k api a.recfmt a.file_arguments w).1 = k.CTRL_EX_OK ↔
      ∀ r ∈ match_replies api a.file_arguments w.service, r.error = k.TS_ERR_OKAY := by
    constructor
    · intro hret
      by_contra hall
      push_neg at hall
      have h := config_match_loop_any_fail k api a.recfmt a.file_arguments w hall
      rw [hret] at h
      exact hne2 h.symm
    · exact config_match_loop_all_ok k api a.recfmt a.file_arguments w
  refine ⟨?_, hget, ?_, ?_, hmatch, ?_⟩
  · intro i hpre hbad
    obtain ⟨h1, h2, h3⟩ := config_get_loop_fail k api a.recfmt a.file_arguments w i hpre hbad
    exact ⟨h1, by rw [h1]; exact hE.2, h3, h2⟩
  · rw [← hget, hE.1]
  · intro i hpre hbad
    obtain ⟨h1, h2, h3⟩ := config_match_loop_fail k api a.recfmt a.file_arguments w i hpre hbad
    exact ⟨h1, by rw [h1]; exact hE.2, h3, h2⟩
  · rw [← hmatch, hE.1]

theorem stops_at_first_failure_witness :
    sampleConsts.ExitConvention
    ∧ (∀ r ∈ (fetch_replies sampleApi ["proxy.a", "x.b", "proxy.c"] (World.start 0).service).take 1,
        r.error = sampleConsts.TS_ERR_OKAY)
    ∧ (∃ r, (fetch_replies sampleApi ["proxy.a", "x.b", "proxy.c"] (World.start 0).service)[1]?
        = some r ∧ r.error ≠ sampleConsts.TS_ERR_OKAY)
    ∧ (config_get sampleConsts sampleApi ⟨true, 0, ["proxy.a", "x.b", "proxy.c"]⟩
        (World.start 0)).1 = sampleConsts.CTRL_EX_ERROR
    ∧ (config_get sampleConsts sampleApi ⟨true, 0, ["proxy.a", "x.b", "proxy.c"]⟩
        (World.start 0)).2.requests = [Request.fetch "proxy.a", Request.fetch "x.b"]
    ∧ (config_get sampleConsts sampleApi ⟨true, 0, ["proxy.a", "x.b", "proxy.c"]⟩
        (World.start 0)).2.out = ["proxy.a: 42\n"] :=
  have h := (stops_at_first_failure sampleConsts sampleApi
    ⟨true, 0, ["proxy.a", "x.b", "proxy.c"]⟩ (World.start 0) (by decide) rfl (by decide)).1 1
    (by decide) (by decide)
  ⟨by decide, by decide, by decide, h.1, h.2.2.1.trans (by decide), h.2.2.2.trans (by decide)⟩

/-- C5: for every record list handed over by a successful pattern match, the
consumption loop of config_match ends, leaves the list empty, and its whole
effect is format_record applied to each record of the list once, in the
order of the list: one line per record is added to standard output, none is
left out, and nothing else changes. Hence config_match on one pattern that
the service answers successfully writes the line of every record of the
answer, in order, and returns CTRL_EX_OK. -/
theorem config_match_consumes_all (k : Consts) (api : Api σ ρ V) (recfmt : Int)
    (reclist : CtrlMgmtRecordList ρ) (w : World σ) :
    (config_match_consume k api recfmt reclist w).1 = []
    ∧ (config_match_consume k api recfmt reclist w).1.empty = true
    ∧ (config_match_consume k api recfmt reclist w).2
        = reclist.foldl (fun w record => format_record k api record (recfmt != 0) w) w
    ∧ (config_match_consume k api recfmt reclist w).2.out
        = w.out ++ reclist.map (fun record => record_line k api record (recfmt != 0))
    ∧ (config_match_consume k api recfmt reclist w).2.out.length
        = w.out.length + reclist.length
    ∧ (config_match_consume k api recfmt reclist w).2.service = w.service
    ∧ (config_match_consume k api recfmt reclist w).2.diag = w.diag
    ∧ (config_match_consume k api recfmt reclist w).2.requests = w.requests
    ∧ (∀ (a : Args) (pattern : String), a.parsed = true → a.file_arguments = [pattern] →
        (api.matchList w.service pattern).error = k.TS_ERR_OKAY →
        (config_match k api a w).1 = k.CTRL_EX_OK
        ∧ (config_match k api a w).2.out
            = w.out ++ (api.matchList w.service pattern).value.map
                (fun record => record_line k api record (a.recfmt != 0))) := by
  have hfold : ∀ (l : List ρ) (w0 : World σ),
      l.foldl (fun w record => format_record k api record (recfmt != 0) w) w0
        = { w0 with out := w0.out ++ l.map fun record =>
              record_line k api record (recfmt != 0) } := by
    intro l
    induction l with
    | nil => intro w0; simp
    | cons r rest ih =>
      intro w0
      rw [List.foldl_cons, ih, format_record_eq]
      simp
  refine ⟨?_, ?_, ?_, ?_, ?_, ?_, ?_, ?_, ?_⟩
  · simp [config_match_consume_eq]
  · simp [config_match_consume_eq, CtrlMgmtRecordList.empty]
  · rw [hfold, config_match_consume_eq]
  · simp [config_match_consume_eq]
  · simp [config_match_consume_eq]
  · simp [config_match_consume_eq]
  · simp [config_match_consume_eq]
  · simp [config_match_consume_eq]
  · intro a pattern hp hf hok
    simp [config_match, hp, hf, config_match_loop, matchList, hok, config_match_consume_eq]

theorem config_match_consumes_all_witness :
    (sampleApi.matchList (World.start 0).service "proxy.config").error
      = sampleConsts.TS_ERR_OKAY
    ∧ (config_match sampleConsts sampleApi ⟨true, 1, ["proxy.config"]⟩ (World.start 0)).2.out
      = ["CONFIG proxy.config.a INT 1\n", "CONFIG proxy.config.b STRING on\n"] :=
  have h := (config_match_consumes_all sampleConsts sampleApi 1 [] (World.start 0)).2.2.2.2.2.2.2.2
    ⟨true, 1, ["proxy.config"]⟩ "proxy.config" rfl rfl (by decide)
  ⟨by decide, h.2.trans (by decide)⟩

end Loops

/-! ## config_describe -/

section ConfigDescribe

variable {σ ρ V : Type}

theorem check_suffix_ne (p e : String) : p ++ ", '" ++ e ++ "'\n" ≠ p ++ "\n" := by
  intro h
  have h2 := congrArg String.length h
  simp only [String.length_append] at h2
  have h3 : (", '" : String).length = 3 := by decide
  have h4 : ("'\n" : String).length = 2 := by decide
  have h5 : ("\n" : String).length = 1 := by decide
  omega

theorem describe_check_eq (k : Consts) (desc : TSConfigRecordDescription V) (w : World σ) :
    describe_check k desc w = { w with out := w.out ++ [check_line k desc] } := by
  have hpad : pad16 "Syntax Check" ++ ": " = "Syntax Check    : " := by decide
  unfold describe_check check_line printf
  by_cases h : desc.rec_checkexpr = ""
  · simp [h, hpad]
  · have hlen : ¬ desc.rec_checkexpr.length = 0 := by
      rw [str_length_eq_zero]; exact h
    simp [h, hlen, hpad]

theorem describe_print_eq (k : Consts) (api : Api σ ρ V) (desc : TSConfigRecordDescription V)
    (w : World σ) :
    describe_print k api desc w = { w with out := w.out ++ describe_lines k api desc } := by
  simp [describe_print, describe_check_eq, printf, describe_lines]

theorem describe_lines_length (k : Consts) (api : Api σ ρ V)
    (desc : TSConfigRecordDescription V) : (describe_lines k api desc).length = 12 := rfl

theorem describe_lines_check (k : Consts) (api : Api σ ρ V)
    (desc : TSConfigRecordDescription V) :
    (describe_lines k api desc)[8]? = some (check_line k desc) := rfl

theorem config_describe_loop_out (k : Consts) (api : Api σ ρ V) (args : List String)
    (w : World σ) :
    (config_describe_loop k api args w).2.out
      = w.out ++ described k api (describe_replies api args w.service) := by
  induction args generalizing w with
  | nil => simp [config_describe_loop, describe_replies, described]
  | cons arg rest ih =>
    by_cases h0 : (api.describe w.service arg).error = k.TS_ERR_OKAY
    · have h := ih (describe_print k api (api.describe w.service arg).value
        { w with service := (api.describe w.service arg).state,
                 requests := w.requests ++ [Request.describe arg] })
      simp only [describe_print_eq] at h
      simp [config_describe_loop, TSConfigRecordDescribe, h0, describe_replies, described,
        describe_print_eq, h]
    · simp [config_describe_loop, TSConfigRecordDescribe, h0, describe_replies, described,
        CtrlMgmtError]

theorem described_at (k : Consts) (api : Api σ ρ V)
    (l : List (Reply (TSConfigRecordDescription V) σ)) (j : Nat)
    (r : Reply (TSConfigRecordDescription V) σ)
    (hok : ∀ x ∈ l.take (j + 1), x.error = k.TS_ERR_OKAY) (hr : l[j]? = some r) :
    ∃ before after : List String, before.length = 12 * j
      ∧ described k api l = before ++ (describe_lines k api r.value ++ after) := by
  induction l generalizing j with
  | nil => simp at hr
  | cons x rest ih =>
    have hx : x.error = k.TS_ERR_OKAY := hok x (by simp)
    cases j with
    | zero =>
      simp only [List.getElem?_cons_zero, Option.some.injEq] at hr
      subst hr
      exact ⟨[], described k api rest, rfl, by simp [described, hx]⟩
    | succ j =>
      simp only [List.getElem?_cons_succ] at hr
      have hok2 : ∀ y ∈ rest.take (j + 1), y.error = k.TS_ERR_OKAY := by
        intro y hy
        exact hok y (by simp [hy])
      obtain ⟨before, after, hb, heq⟩ := ih j hok2 hr
      refine ⟨describe_lines k api x.value ++ before, after, ?_, ?_⟩
      · simp [describe_lines_length, hb]; omega
      · simp [described, hx, heq]

theorem described_all (k : Consts) (api : Api σ ρ V)
    (l : List (Reply (TSConfigRecordDescription V) σ))
    (hok : ∀ x ∈ l, x.error = k.TS_ERR_OKAY) :
    (described k api l).length = 12 * l.length := by
  induction l with
  | nil => rfl
  | cons x rest ih =>
    have hx : x.error = k.TS_ERR_OKAY := hok x (by simp)
    have h := ih (fun y hy => hok y (by simp [hy]))
    simp [described, hx, describe_lines_length, h]
    omega

theorem describe_replies_length (api : Api σ ρ V) (args : List String) (s : σ) :
    (describe_replies api args s).length = args.length := by
  induction args generalizing s with
  | nil => rfl
  | cons arg rest ih => simp [describe_replies, ih]

theorem config_describe_nonempty (k : Consts) (api : Api σ ρ V) (a : Args) (w : World σ)
    (hp : a.parsed = true) (hne : a.file_arguments ≠ []) :
    config_describe k api a w = config_describe_loop k api a.file_arguments w := by
  have hlen : ¬ a.file_arguments.length < 1 := by
    cases hargs : a.file_arguments with
    | nil => exact absurd hargs hne
    | cons x xs => simp
  simp [config_describe, hp, hlen]

/-- C6: for every description handed over by a successful describe, whatever
its place among the arguments of config_describe, the twelve lines written
for it have the "Syntax Check" line as their ninth. When the record has no
validation expression (the expression text is empty) that line carries only
the rule-kind text rec_checkof(checktype); otherwise it carries the rule-kind
text followed by ", '<expr>'" with the expression text as it is. When every
describe succeeds, twelve lines are written per argument. The same holds of
the print statements of config_describe for any description at all. -/
theorem describe_check_rendering (k : Consts) (api : Api σ ρ V) (a : Args) (w : World σ)
    (hp : a.parsed = true) (hne : a.file_arguments ≠ []) :
    (∀ (j : Nat) (r : Reply (TSConfigRecordDescription V) σ),
      (∀ x ∈ (describe_replies api a.file_arguments w.service).take (j + 1),
        x.error = k.TS_ERR_OKAY) →
      (describe_replies api a.file_arguments w.service)[j]? = some r →
      12 * (j + 1) ≤ ((config_describe k api a w).2.out.drop w.out.length).length
      ∧ (r.value.rec_checkexpr = "" →
          ((config_describe k api a w).2.out.drop w.out.length)[12 * j + 8]?
            = some ("Syntax Check    : " ++ rec_checkof k r.value.rec_checktype ++ "\n"))
      ∧ (r.value.rec_checkexpr ≠ "" →
          ((config_describe k api a w).2.out.drop w.out.length)[12 * j + 8]?
            = some ("Syntax Check    : " ++ rec_checkof k r.value.rec_checktype ++ ", '"
                ++ r.value.rec_checkexpr ++ "'\n")))
    ∧ ((∀ x ∈ describe_replies api a.file_arguments w.service, x.error = k.TS_ERR_OKAY) →
        ((config_describe k api a w).2.out.drop w.out.length).length
          = 12 * a.file_arguments.length)
    ∧ (∀ (desc : TSConfigRecordDescription V) (w0 : World σ),
        ((describe_print k api desc w0).out.drop w0.out.length).length = 12
        ∧ (desc.rec_checkexpr = "" →
            ((describe_print k api desc w0).out.drop w0.out.length)[8]?
              = some ("Syntax Check    : " ++ rec_checkof k desc.rec_checktype ++ "\n"))
        ∧ (desc.rec_checkexpr ≠ "" →
            ((describe_print k api desc w0).out.drop w0.out.length)[8]?
              = some ("Syntax Check    : " ++ rec_checkof k desc.rec_checktype ++ ", '"
                  ++ desc.rec_checkexpr ++ "'\n"))) := by
  have hprinted : (config_describe k api a w).2.out.drop w.out.length
      = described k api (describe_replies api a.file_arguments w.service) := by
    rw [config_describe_nonempty k api a w hp hne, config_describe_loop_out, List.drop_left]
  refine ⟨?_, ?_, ?_⟩
  · intro j r hok hr
    obtain ⟨before, after, hb, heq⟩ := described_at k api _ j r hok hr
    have hidx : ((config_describe k api a w).2.out.drop w.out.length)[12 * j + 8]?
        = some (check_line k r.value) := by
      rw [hprinted, heq, List.getElem?_append_right (by omega), hb,
        List.getElem?_append_left (by simp [describe_lines_length])]
      simp [describe_lines_check]
    refine ⟨?_, ?_, ?_⟩
    · rw [hprinted, heq]
      simp [describe_lines_length, hb]
      omega
    · intro h
      rw [hidx]; simp [check_line, h]
    · intro h
      rw [hidx]; simp [check_line, h]
  · intro hall
    rw [hprinted, described_all k api _ hall, describe_replies_length]
  · intro desc w0
    have hp0 : (describe_print k api desc w0).out.drop w0.out.length
        = describe_lines k api desc := by
      rw [describe_print_eq]
      simp
    refine ⟨by rw [hp0]; rfl, ?_, ?_⟩
    · intro h
      rw [hp0, describe_lines_check]; simp [check_line, h]
    · intro h
      rw [hp0, describe_lines_check]; simp [check_line, h]

theorem describe_check_rendering_witness :
    (∀ x ∈ (describe_replies sampleApi ["local.flag", "proxy.config.http.server_ports"]
        (World.start 0).service).take 2, x.error = sampleConsts.TS_ERR_OKAY)
    ∧ ((config_describe sampleConsts sampleApi
          ⟨true, 0, ["local.flag", "proxy.config.http.server_ports"]⟩
          (World.start 0)).2.out.drop (World.start 0).out.length)[20]?
        = some "Syntax Check    : string matching a regular expression, '^[0-9]+$'\n"
    ∧ ((config_describe sampleConsts sampleApi
          ⟨true, 0, ["local.flag", "proxy.config.http.server_ports"]⟩
          (World.start 0)).2.out.drop (World.start 0).out.length)[8]?
        = some "Syntax Check    : integer with a specified range\n" :=
  have h := (describe_check_rendering sampleConsts sampleApi
    ⟨true, 0, ["local.flag", "proxy.config.http.server_ports"]⟩ (World.start 0) rfl
    (by decide)).1
  ⟨by decide,
    ((h 1 (sampleApi.describe 1 "proxy.config.http.server_ports") (by decide) rfl).2.2
      (by decide)).trans (by decide),
    ((h 0 (sampleApi.describe 0 "local.flag") (by decide) rfl).2.1
      (by decide)).trans (by decide)⟩

/-- C7, the claim fails: the sample service describes `local.flag` with an
integer-range rule and an empty-string validation expression, and the
"Syntax Check" line of config_describe is the rule-kind text alone, the line
of a record without expression; no empty literal expression is appended. -/
theorem describe_empty_expr_counterexample :
    (sampleApi.describe 0 "local.flag").error = sampleConsts.TS_ERR_OKAY
    ∧ (sampleApi.describe 0 "local.flag").value.rec_checkexpr = ""
    ∧ (config_describe sampleConsts sampleApi ⟨true, 0, ["local.flag"]⟩
        (World.start 0)).2.out[8]?
      = some "Syntax Check    : integer with a specified range\n"
    ∧ ¬ ((config_describe sampleConsts sampleApi ⟨true, 0, ["local.flag"]⟩
        (World.start 0)).2.out[8]?
      = some "Syntax Check    : integer with a specified range, ''\n") := by
  decide

/-- C7, amended: config_describe does not tell an empty-string validation
expression from an absent one. For every rule kind, the "Syntax Check" line
carries the rule-kind name alone exactly when the expression text is empty,
and carries ", '<expr>'" after the rule-kind name exactly when the
expression text is not empty; two descriptions of the same rule kind with
empty expression text get the same line. -/
theorem describe_check_empty_is_absent (k : Consts) (desc : TSConfigRecordDescription V)
    (w : World σ) :
    ((describe_check k desc w).out
        = w.out ++ ["Syntax Check    : " ++ rec_checkof k desc.rec_checktype ++ "\n"]
      ↔ desc.rec_checkexpr = "")
    ∧ ((describe_check k desc w).out
        = w.out ++ ["Syntax Check    : " ++ rec_checkof k desc.rec_checktype ++ ", '"
            ++ desc.rec_checkexpr ++ "'\n"]
      ↔ desc.rec_checkexpr ≠ "")
    ∧ (∀ other : TSConfigRecordDescription V, other.rec_checktype = desc.rec_checktype →
        other.rec_checkexpr = "" → desc.rec_checkexpr = "" →
        describe_check k other w = describe_check k desc w) := by
  have hne := check_suffix_ne ("Syntax Check    : " ++ rec_checkof k desc.rec_checktype)
    desc.rec_checkexpr
  refine ⟨?_, ?_, ?_⟩
  · by_cases h : desc.rec_checkexpr = ""
    · simp [describe_check_eq, check_line, h]
    · simp [describe_check_eq, check_line, h, hne]
  · by_cases h : desc.rec_checkexpr = ""
    · have hne2 := hne.symm
      rw [h] at hne2
      simp only [String.append_empty] at hne2
      simp [describe_check_eq, check_line, h, hne2]
    · simp [describe_check_eq, check_line, h]
  · intro other h1 h2 h3
    simp [describe_check_eq, check_line, h1, h2, h3]

theorem describe_check_empty_is_absent_witness :
    (describe_check sampleConsts (sampleApi.describe 0 "local.flag").value
        (World.start 0)).out = ["Syntax Check    : integer with a specified range\n"] :=
  ((describe_check_empty_is_absent sampleConsts (sampleApi.describe 0 "local.flag").value
    (World.start 0)).1.mpr (by decide)).trans (by decide)

end ConfigDescribe

end TrafficCtl
